import Mathlib

/-!
# NexusChat: ingestion and context-composition pipeline, shallowly embedded

This development embeds the core of the NexusChat application (two storage
backends: `app.py`, the MongoDB version, and `app_mysql.py`, the MySQL
version) as executable Lean functions and proves properties of the
ingestion / context-composition / response pipeline.

Python strings are modelled as `List Char` (`Str`): Python slicing `s[:n]`
is `List.take n`, `len` is `List.length`, `+` is `++`, the `in` substring
test is `strContains`.  Database collections are modelled as Lean lists in
insertion order; a MongoDB sort by timestamp descending is `List.reverse`
(messages are appended in timestamp order within a request, and timestamps
are modelled as strictly increasing with insertion order).
-/

set_option maxRecDepth 16384

/-- Python strings as lists of characters. -/
abbrev Str := List Char

/-- Coerce a Lean string literal to the `Str` model. -/
def str (s : String) : Str := s.data

/-- Python `pat in hay` substring test on strings. -/
def strContains (hay pat : Str) : Bool :=
  match hay with
  | [] => pat.isEmpty
  | _ :: t => pat.isPrefixOf hay || strContains t pat

/-- Python `s.lower()`. -/
def lowerStr (s : Str) : Str := s.map Char.toLower

/-- Python `s.strip()` (whitespace at both ends). -/
def pyStrip (s : Str) : Str :=
  ((s.dropWhile Char.isWhitespace).reverse.dropWhile Char.isWhitespace).reverse

/-- Python `s.split()` (split on whitespace runs, dropping empty pieces). -/
def pySplitWs : Str → Str → List Str
  | [], acc => if acc.isEmpty then [] else [acc.reverse]
  | c :: rest, acc =>
    if c.isWhitespace then
      if acc.isEmpty then pySplitWs rest [] else acc.reverse :: pySplitWs rest []
    else pySplitWs rest (c :: acc)

/-- Python `s.rsplit(".", 1)`: one element if `s` has no dot, otherwise the
part before the last dot and the part after it. -/
def pyRsplitDot1 (s : Str) : List Str :=
  if s.contains '.' then
    let r := s.reverse
    let after := r.takeWhile (fun c => !(c == '.'))
    let before := (r.dropWhile (fun c => !(c == '.'))).drop 1
    [before.reverse, after.reverse]
  else [s]

/-- Python `s.strip("._")`. -/
def pyStripDotUnderscore (s : Str) : Str :=
  let p : Char → Bool := fun c => c == '.' || c == '_'
  ((s.dropWhile p).reverse.dropWhile p).reverse

/-- `werkzeug.utils.secure_filename`, restricted to ASCII input (the only
inputs the claims exercise): path separators become spaces, whitespace runs
become a single underscore, characters outside `[A-Za-z0-9_.-]` are removed,
and leading/trailing `.` and `_` are stripped. -/
def secure_filename (s : Str) : Str :=
  let s1 := s.map (fun c => if c == '/' then ' ' else c)
  let joined := List.intercalate (str "_") (pySplitWs s1 [])
  let kept := joined.filter (fun c => c.isAlphanum || c == '_' || c == '.' || c == '-')
  pyStripDotUnderscore kept

/-- `ALLOWED_EXTENSIONS` from `app.py` / `app_mysql.py`. -/
def ALLOWED_EXTENSIONS : List Str :=
  [str "txt", str "pdf", str "png", str "jpg", str "jpeg", str "gif", str "webp"]

/-- `allowed_file` from `app.py` (identical in `app_mysql.py`):
`'.' in filename and filename.rsplit(".", 1)[1].lower() in ALLOWED_EXTENSIONS`. -/
def allowed_file (filename : Str) : Bool :=
  filename.contains '.' &&
    ALLOWED_EXTENSIONS.contains (lowerStr ((pyRsplitDot1 filename).getD 1 []))

/-- The extension recomputation `original_filename.rsplit(".", 1)[1].lower()`
performed by `upload_file` on the sanitized filename; `none` models the
`IndexError` Python raises when the split yields a single element. -/
def recomputed_ext (name : Str) : Option Str :=
  ((pyRsplitDot1 name).get? 1).map lowerStr

/-! ## Data model -/

/-- A chat session (`chat_sessions` collection): identity and owning user. -/
structure ChatSession where
  id : String
  user_id : String
deriving DecidableEq

/-- A chat message (`messages` collection).  Timestamp order is the list
order of the enclosing collection. -/
structure Message where
  session_id : String
  sender : Str
  content : Str
deriving DecidableEq

/-- An uploaded file (`uploaded_items` collection). -/
structure UploadedItem where
  id : Nat
  session_id : String
  user_id : String
  original_filename : Str
  file_type : Str
  extracted_text : Str
deriving DecidableEq

/-- An analysis record (`analysis_results` collection). -/
structure AnalysisRecord where
  id : Nat
  item_id : Nat
  session_id : String
  analysis_type : Str
  summary : Str
deriving DecidableEq

/-- The persistent store: each collection as a list in insertion order. -/
structure DB where
  chat_sessions : List ChatSession
  messages : List Message
  uploaded_items : List UploadedItem
  analysis_results : List AnalysisRecord
deriving DecidableEq

/-! ## Extractor: the visual-description call -/

/-- Result dictionary of `analyze_image_with_vision`. -/
structure VisionResult where
  success : Bool
  analysis : Str
deriving DecidableEq

/-- `analyze_image_with_vision` from `app.py`, with the external model call
abstracted as its outcome: on success the description text, on failure the
exception message.  A failure yields `success = false` and the diagnostic
`"Error: " ++ e` in the `analysis` field. -/
def analyze_image_with_vision (outcome : Except Str Str) : VisionResult :=
  match outcome with
  | .ok t => { success := true, analysis := t }
  | .error e => { success := false, analysis := str "Error: " ++ e }

/-! ## AnalysisStore: records written by `upload_file` (app.py) -/

/-- The analysis records inserted by `upload_file` in `app.py` after the
item insert: a text-analysis record when the stripped extracted text is
non-empty, and a vision record whenever the item is an image and the
vision-analysis dictionary exists — regardless of its `success` flag.  The
AI text summary is abstracted as a parameter, and record ids are assigned
by the store (written 0 here). -/
def upload_analyses (item_id : Nat) (sid : String) (file_type extracted_text : Str)
    (vision_analysis : Option VisionResult) (text_summary : Str) : List AnalysisRecord :=
  (if !(pyStrip extracted_text).isEmpty then
    [{ id := 0, item_id := item_id, session_id := sid,
       analysis_type := file_type ++ str "_text_analysis", summary := text_summary }]
  else []) ++
  (if file_type == str "image" then
    match vision_analysis with
    | some v => [{ id := 0, item_id := item_id, session_id := sid,
                   analysis_type := str "vision_analysis", summary := v.analysis }]
    | none => []
  else [])

/-- `extracted_text` preview in the upload response:
`extracted_text[:500] + "..." if len(extracted_text) > 500 else extracted_text`. -/
def extracted_text_preview (s : Str) : Str :=
  if s.length > 500 then s.take 500 ++ str "..." else s

/-- `vision_preview` in the upload response:
`analysis[:300] + "..." if len(analysis) > 300 else analysis`. -/
def vision_preview (s : Str) : Str :=
  if s.length > 300 then s.take 300 ++ str "..." else s

/-! ## ContextComposer: `send_message` in app.py -/

/-- The hard character cut `text[:2000]` applied to each extracted-text
fragment embedded in a file-grounded context. -/
def truncText (s : Str) : Str := s.take 2000

/-- The hard character cut `summary[:1000]` applied to each vision fragment
embedded in a file-grounded context. -/
def truncVision (s : Str) : Str := s.take 1000

/-- The uploaded items of a session, in insertion order. -/
def sessionItems (db : DB) (sid : String) : List UploadedItem :=
  db.uploaded_items.filter (fun f => f.session_id == sid)

/-- `analysis_results.find_one({"item_id": ..., "analysis_type": "vision_analysis"})`:
the first vision record for the item. -/
def findVision (recs : List AnalysisRecord) (itemId : Nat) : Option AnalysisRecord :=
  recs.find? (fun r => r.item_id == itemId && r.analysis_type == str "vision_analysis")

/-- `"Extracted text from {filename}:\n{text[:2000]}"`. -/
def textFragment (f : UploadedItem) : Str :=
  str "Extracted text from " ++ f.original_filename ++ str ":\n" ++ truncText f.extracted_text

/-- `"Vision analysis for {filename}:\n{summary[:1000]}"`. -/
def visionFragment (f : UploadedItem) (v : AnalysisRecord) : Str :=
  str "Vision analysis for " ++ f.original_filename ++ str ":\n" ++ truncVision v.summary

/-- The `file_contexts` list assembled by `send_message`: one fragment per
item with truthy `extracted_text`, then one fragment per item having a
vision record with truthy `summary`. -/
def gatherFileContexts (db : DB) (sid : String) : List Str :=
  ((sessionItems db sid).filter (fun f => !f.extracted_text.isEmpty)).map textFragment
  ++ (sessionItems db sid).filterMap (fun f =>
      match findVision db.analysis_results f.id with
      | some v => if !v.summary.isEmpty then some (visionFragment f v) else none
      | none => none)

/-- The file-grounded prompt string built by `send_message`. -/
def fileGroundedPrompt (content : Str) (fcs : List Str) : Str :=
  str "You are an expert assistant. Answer the user\x27s question based ONLY on the following uploaded document(s) or image(s).\n"
  ++ str "User question: " ++ content ++ str "\n"
  ++ str "\n---\n\n" ++ List.intercalate (str "\n\n") fcs
  ++ str "\n\nIf the answer is not in the document/image, say \x27I could not find the answer in the uploaded file.\x27"

/-- What `send_message` passes to the model: either the file-grounded prompt
(with empty context), or the raw question alongside the recent-message
context. -/
inductive PromptMode where
  | fileGrounded (prompt : Str)
  | conversational (question : Str) (context : Str)
deriving DecidableEq

/-- `true` exactly on the conversational constructor. -/
def PromptMode.isConversational : PromptMode → Bool
  | .conversational _ _ => true
  | .fileGrounded _ => false

/-- The context composition performed by `send_message` in `app.py` for a new
question `content`: the user message is saved first; then, if any file
context exists, the file-grounded prompt is built, otherwise the most recent
5 messages (which now include the just-saved user message) are fetched in
descending time order, reversed to chronological order, rendered as
`"{sender}: {content}"` lines and joined by newline. -/
def composeForQuestion (db : DB) (sid : String) (content : Str) : PromptMode :=
  let msgs1 := db.messages ++ [{ session_id := sid, sender := str "user", content := content }]
  let fcs := gatherFileContexts db sid
  if fcs.isEmpty then
    let recent := ((msgs1.filter (fun m => m.session_id == sid)).reverse.take 5).reverse
    .conversational content
      (List.intercalate (str "\n") (recent.map (fun m => m.sender ++ str ": " ++ m.content)))
  else
    .fileGrounded (fileGroundedPrompt content fcs)

/-! ## send_message: message writes and the ownership check -/

/-- `send_message` in `app.py` (MongoDB backend), with the model reply
abstracted as a parameter: it performs no session-ownership check — it saves
the user message, obtains a reply and saves it, returning no error. -/
def mongo_send_message (db : DB) (uid sid : String) (content aiReply : Str) :
    DB × Option Str :=
  let _ := uid
  let db1 : DB := { db with messages :=
    db.messages ++ [{ session_id := sid, sender := str "user", content := content }] }
  let db2 : DB := { db1 with messages :=
    db1.messages ++ [{ session_id := sid, sender := str "assistant", content := aiReply }] }
  (db2, none)

/-- `send_message` in `app_mysql.py` (MySQL backend), with the model reply
abstracted as a parameter: it first verifies the session belongs to the
calling user and returns the `Session not found` error with no writes when
the check fails; otherwise it saves the user message and the reply. -/
def mysql_send_message (db : DB) (uid sid : String) (content aiReply : Str) :
    DB × Option Str :=
  if db.chat_sessions.any (fun s => s.id == sid && s.user_id == uid) then
    let db1 : DB := { db with messages :=
      db.messages ++ [{ session_id := sid, sender := str "user", content := content }] }
    let db2 : DB := { db1 with messages :=
      db1.messages ++ [{ session_id := sid, sender := str "assistant", content := aiReply }] }
    (db2, none)
  else (db, some (str "Session not found"))

/-! ## Responder: model-call failure handling -/

/-- `get_ai_response` in `app.py` (MongoDB backend) on a failed model call
with exception message `e`: it returns `f"AI error: {str(e)}"` — the raw
failure text, unclassified and unbounded. -/
def mongo_ai_error_reply (e : Str) : Str := str "AI error: " ++ e

/-- The fixed rate-limit sentence of `get_ai_response` in `app_mysql.py`. -/
def rateLimitSentence : Str :=
  str "I apologize, but the API quota has been exceeded. Please try again later."

/-- `get_ai_response` in `app_mysql.py` (MySQL backend) on a failed model
call with exception message `e`: the lowercased message is tested against
substrings in priority order and mapped to a fixed sentence; only the final
generic branch embeds the raw text, cut to its first 100 characters. -/
def mysql_ai_error_reply (e : Str) : Str :=
  let m := lowerStr e
  if strContains m (str "not found") || strContains m (str "404") then
    str "I apologize, but I\x27m having trouble connecting to the AI service: Model not found. Please check the API configuration."
  else if strContains m (str "permission") || strContains m (str "403") then
    str "I apologize, but there\x27s an API permission issue. Please check your API key."
  else if strContains m (str "quota") || strContains m (str "limit") then
    rateLimitSentence
  else if strContains m (str "key") || strContains m (str "auth") then
    str "I apologize, but there\x27s an authentication issue with the AI service."
  else
    str "I apologize, but I\x27m having trouble connecting to the AI service: " ++ e.take 100

/-! ## Listing analyses -/

/-- One row of the `get_analyses` response. -/
structure AnalysisRow where
  rid : Nat
  item_id : Nat
  analysis_type : Str
  summary : Str
  filename : Str
  file_type : Str
deriving DecidableEq

/-- `get_analyses` in `app.py` (MongoDB backend): every analysis record of
the session, most recent first; each row looks up its owning item and falls
back to empty filename and file type when the item no longer exists. -/
def mongo_get_analyses (db : DB) (sid : String) : List AnalysisRow :=
  ((db.analysis_results.filter (fun a => a.session_id == sid)).reverse).map (fun a =>
    match db.uploaded_items.find? (fun i => i.id == a.item_id) with
    | some item => { rid := a.id, item_id := a.item_id, analysis_type := a.analysis_type,
                     summary := a.summary, filename := item.original_filename,
                     file_type := item.file_type }
    | none => { rid := a.id, item_id := a.item_id, analysis_type := a.analysis_type,
                summary := a.summary, filename := [], file_type := [] })

/-! ## Concrete fixtures used by counterexamples and witnesses -/

/-- An image item with empty extracted text. -/
def imgItemA : UploadedItem :=
  { id := 1, session_id := "s", user_id := "u1",
    original_filename := str "photo.png", file_type := str "image", extracted_text := [] }

/-- The vision record persisted for `imgItemA` by a failed vision call:
its summary is the non-empty diagnostic string. -/
def visRecA : AnalysisRecord :=
  { id := 2, item_id := 1, session_id := "s",
    analysis_type := str "vision_analysis",
    summary := (analyze_image_with_vision (Except.error (str "boom"))).analysis }

/-- A session holding only `imgItemA` and its failed-vision record. -/
def dbA : DB := { chat_sessions := [{ id := "s", user_id := "u1" }],
                  messages := [], uploaded_items := [imgItemA], analysis_results := [visRecA] }

/-- A session with two prior messages and no uploaded items (Scenario D). -/
def dbD : DB := { chat_sessions := [{ id := "s", user_id := "u1" }],
                  messages := [{ session_id := "s", sender := str "user", content := str "hi" },
                               { session_id := "s", sender := str "assistant", content := str "hello" }],
                  uploaded_items := [], analysis_results := [] }

/-- A store holding one session owned by `alice` and nothing else. -/
def dbC3 : DB := { chat_sessions := [{ id := "s1", user_id := "alice" }],
                   messages := [], uploaded_items := [], analysis_results := [] }

/-- A store holding one analysis record whose owning item no longer exists. -/
def dbH : DB := { chat_sessions := [{ id := "s", user_id := "u1" }],
                  messages := [], uploaded_items := [],
                  analysis_results := [{ id := 5, item_id := 7, session_id := "s",
                                         analysis_type := str "vision_analysis", summary := str "x" }] }

/-- A PDF-like item with non-empty extracted text. -/
def itemW : UploadedItem :=
  { id := 1, session_id := "s", user_id := "u1",
    original_filename := str "doc.pdf", file_type := str "pdf", extracted_text := str "T" }

/-- A prior message in the same session as `itemW`. -/
def msgW : Message := { session_id := "s", sender := str "user", content := str "earlier" }

/-! ## C1 — all-empty extractions with all-failed vision calls -/

/-- C1 counterexample: in `app.py` a failed vision call persists the
non-empty diagnostic `"Error: boom"` as the record summary, so a session
whose only item has empty extracted text and a failed vision call does NOT
fall back to conversational mode — the composition is file-grounded. -/
theorem failed_vision_session_not_conversational :
    (composeForQuestion dbA "s" (str "hi")).isConversational = false := by decide

/-- C1 amended: a session falls back to conversational mode only when no
item has non-empty text and no item has a vision record with non-empty
summary; since a failed vision call stores a non-empty diagnostic summary,
any session item with such a record keeps the composition file-grounded. -/
theorem vision_record_forces_file_grounded (db : DB) (sid : String) (q : Str)
    (f : UploadedItem) (v : AnalysisRecord)
    (hf : f ∈ sessionItems db sid)
    (hv : findVision db.analysis_results f.id = some v)
    (hs : v.summary.isEmpty = false) :
    (composeForQuestion db sid q).isConversational = false := by
  have hmem : visionFragment f v ∈ (sessionItems db sid).filterMap (fun f' =>
      match findVision db.analysis_results f'.id with
      | some v' => if !v'.summary.isEmpty then some (visionFragment f' v') else none
      | none => none) := by
    refine List.mem_filterMap.mpr ⟨f, hf, ?_⟩
    rw [hv]
    simp [hs]
  have hne : gatherFileContexts db sid ≠ [] := by
    unfold gatherFileContexts
    intro hcontra
    rcases List.append_eq_nil.mp hcontra with ⟨_, h2⟩
    exact List.ne_nil_of_mem hmem h2
  have hE : (gatherFileContexts db sid).isEmpty = false := by
    cases hgl : gatherFileContexts db sid with
    | nil => exact absurd hgl hne
    | cons a l => rfl
  unfold composeForQuestion
  simp [hE, PromptMode.isConversational]

/-- C1 witness: the amended theorem applied to the concrete failed-vision
session `dbA`. -/
theorem vision_record_forces_file_grounded_witness :
    (composeForQuestion dbA "s" (str "yo")).isConversational = false :=
  vision_record_forces_file_grounded dbA "s" (str "yo") imgItemA visRecA
    (by decide) (by decide) (by decide)

/-! ## C2 — vision record persisted regardless of call success -/

/-- C2 counterexample: for an image upload whose vision call failed
(`success = false`), `upload_file` still inserts a `vision_analysis` record
(with the diagnostic text as its summary), contradicting the claim that a
record is persisted only when the call succeeded. -/
theorem vision_record_persisted_on_failed_call :
    (analyze_image_with_vision (Except.error (str "boom"))).success = false ∧
    (upload_analyses 1 "s" (str "image") []
        (some (analyze_image_with_vision (Except.error (str "boom")))) []).countP
      (fun r => r.analysis_type == str "vision_analysis") = 1 := by decide

/-- C2 amended: for every image upload, exactly one `vision_analysis`
record is persisted whenever the vision-analysis dictionary exists — for
failed calls as well as successful ones; the `success` flag is only
reported in the response payload. -/
theorem image_upload_always_persists_vision_record
    (item_id : Nat) (sid : String) (etext summ : Str) (v : VisionResult) :
    (upload_analyses item_id sid (str "image") etext (some v) summ).countP
      (fun r => r.analysis_type == str "vision_analysis") = 1 := by
  unfold upload_analyses
  cases h : !(pyStrip etext).isEmpty <;>
    simp +decide [List.countP_append, List.countP_cons, List.countP_nil]

/-! ## C3 — missing ownership check in the MongoDB answer operation -/

/-- C3: `send_message` in `app.py` performs no session-ownership check.
For a session owned by `alice` and a call by `bob`, the MongoDB backend
returns no error and writes both the user and the assistant message, while
the MySQL backend returns `Session not found` and writes nothing. -/
theorem mongo_send_message_skips_ownership_check :
    (mongo_send_message dbC3 "bob" "s1" (str "hi") (str "reply")).2 = none ∧
    (mongo_send_message dbC3 "bob" "s1" (str "hi") (str "reply")).1.messages.length = 2 ∧
    (mysql_send_message dbC3 "bob" "s1" (str "hi") (str "reply")).2
      = some (str "Session not found") ∧
    (mysql_send_message dbC3 "bob" "s1" (str "hi") (str "reply")).1.messages.length = 0 := by
  decide

/-! ## C4 — raw model-call failures surfaced by the MongoDB Responder -/

/-- C4 counterexample: on a failure whose message contains "quota", the
MongoDB backend's `get_ai_response` returns `"AI error: quota exceeded"` —
the raw failure text verbatim, not the rate-limit category's fixed
sentence. -/
theorem mongo_responder_surfaces_raw_error :
    strContains (mongo_ai_error_reply (str "quota exceeded")) (str "quota exceeded") = true ∧
    mongo_ai_error_reply (str "quota exceeded") ≠ rateLimitSentence := by decide

/-- C4 amended: in the MySQL backend only, a failure whose lowercased
message contains "quota" or "limit" and none of the higher-priority
substrings ("not found", "404", "permission", "403") yields the fixed
rate-limit sentence; the MongoDB backend instead prepends "AI error: " to
the raw failure text. -/
theorem mysql_quota_limit_fixed_sentence (e : Str)
    (h1 : strContains (lowerStr e) (str "not found") = false)
    (h2 : strContains (lowerStr e) (str "404") = false)
    (h3 : strContains (lowerStr e) (str "permission") = false)
    (h4 : strContains (lowerStr e) (str "403") = false)
    (h5 : strContains (lowerStr e) (str "quota") = true ∨
          strContains (lowerStr e) (str "limit") = true) :
    mysql_ai_error_reply e = rateLimitSentence := by
  unfold mysql_ai_error_reply
  rcases h5 with h5 | h5 <;> simp [h1, h2, h3, h4, h5]

/-- C4 witness: the amended theorem at the Scenario E message. -/
theorem mysql_quota_limit_fixed_sentence_witness :
    mysql_ai_error_reply (str "quota exceeded") = rateLimitSentence :=
  mysql_quota_limit_fixed_sentence (str "quota exceeded")
    (by decide) (by decide) (by decide) (by decide) (Or.inl (by decide))

/-! ## C5 — the conversational context includes the just-saved question -/

/-- C5 counterexample: `send_message` saves the user message before
fetching the recent 5, so in Scenario D the composed context is not exactly
the two prior lines. -/
theorem scenario_d_context_not_two_lines :
    composeForQuestion dbD "s" (str "what?") ≠
      PromptMode.conversational (str "what?") (str "user: hi\nassistant: hello") := by decide

/-- C5 amended: the conversational context is built from the 5 most recent
messages including the just-saved user question; in Scenario D it is
exactly the two prior lines followed by `"user: {question}"`. -/
theorem scenario_d_context_includes_new_question (q : Str) :
    composeForQuestion dbD "s" q =
      PromptMode.conversational q (str "user: hi\nassistant: hello\nuser: " ++ q) := by
  have h : composeForQuestion dbD "s" q
      = PromptMode.conversational q (List.intercalate (str "\n")
          [str "user: hi", str "assistant: hello", str "user: " ++ q]) := rfl
  rw [h]
  simp only [List.intercalate, List.intersperse, List.flatten_cons, List.flatten_nil,
    List.append_nil, List.append_assoc]
  rfl

/-! ## C6 — fragment truncation bounds and idempotence -/

/-- C6: the hard cuts applied to every embedded fragment of a file-grounded
context keep extracted-text fragments at most 2000 characters and vision
fragments at most 1000 characters, are idempotent, and leave already-short
text unchanged. -/
theorem fragment_truncation_bounds (s : Str) :
    (truncText s).length ≤ 2000 ∧ (truncVision s).length ≤ 1000 ∧
    truncText (truncText s) = truncText s ∧
    truncVision (truncVision s) = truncVision s ∧
    (s.length ≤ 2000 → truncText s = s) ∧
    (s.length ≤ 1000 → truncVision s = s) := by
  unfold truncText truncVision
  refine ⟨?_, ?_, ?_, ?_, ?_, ?_⟩
  · simp [List.length_take]
  · simp [List.length_take]
  · simp [List.take_take]
  · simp [List.take_take]
  · intro h; exact List.take_of_length_le h
  · intro h; exact List.take_of_length_le h

/-- C6 witness: the bounds and the no-op case at concrete strings. -/
theorem fragment_truncation_bounds_witness :
    truncText (str "short") = str "short" ∧ (truncVision (str "v")).length ≤ 1000 :=
  ⟨(fragment_truncation_bounds (str "short")).2.2.2.2.1 (by decide),
   (fragment_truncation_bounds (str "v")).2.1⟩

/-! ## C7 — upload previews exceed the claimed bounds by the ellipsis -/

/-- C7 counterexample: for a 501-character extracted text the preview is
`text[:500] + "..."`, 503 characters long — more than the claimed 500. -/
theorem preview_exceeds_500 :
    ¬ (extracted_text_preview (List.replicate 501 'a')).length ≤ 500 := by decide

/-- C7 amended: the extracted-text preview is at most 503 characters
(500 plus the three-character ellipsis) and the vision preview at most 303
characters (300 plus the ellipsis), for every source length; sources within
the cut are returned unchanged. -/
theorem preview_bounds (s : Str) :
    (extracted_text_preview s).length ≤ 503 ∧ (vision_preview s).length ≤ 303 := by
  have h3 : (str "...").length = 3 := rfl
  unfold extracted_text_preview vision_preview
  constructor
  · split
    · simp only [List.length_append, List.length_take, h3]
      omega
    · omega
  · split
    · simp only [List.length_append, List.length_take, h3]
      omega
    · omega

/-! ## C8 — orphaned analysis records are listed, not omitted -/

/-- C8 counterexample: for a session holding one analysis record whose item
was deleted, the MongoDB `get_analyses` returns the record (with empty
filename) instead of omitting it. -/
theorem orphaned_record_still_listed :
    dbH.uploaded_items.find? (fun i => i.id == 7) = none ∧
    (mongo_get_analyses dbH "s").length = 1 ∧
    (mongo_get_analyses dbH "s").map (fun r => r.filename) = [[]] := by decide

/-- C8 amended: the MongoDB listing returns one row per analysis record of
the session — orphaned records included, shown with empty filename and file
type — and never raises (it is a total function of the store); only the
MySQL backend's inner join omits orphans. -/
theorem mongo_get_analyses_total (db : DB) (sid : String) :
    (mongo_get_analyses db sid).length
      = (db.analysis_results.filter (fun a => a.session_id == sid)).length := by
  simp [mongo_get_analyses]

/-! ## C9 — file-grounded prompts are independent of message history -/

/-- C9: whenever the composition is file-grounded, the prompt is a function
only of the question, the session's uploaded items and the analysis
records: changing the message history arbitrarily yields the identical
prompt. -/
theorem file_grounded_prompt_ignores_history
    (cs : List ChatSession) (ms1 ms2 : List Message) (items : List UploadedItem)
    (ars : List AnalysisRecord) (sid : String) (q p : Str)
    (h : composeForQuestion ⟨cs, ms1, items, ars⟩ sid q = .fileGrounded p) :
    composeForQuestion ⟨cs, ms2, items, ars⟩ sid q = .fileGrounded p := by
  have hg : gatherFileContexts ⟨cs, ms2, items, ars⟩ sid
      = gatherFileContexts ⟨cs, ms1, items, ars⟩ sid := rfl
  unfold composeForQuestion at h ⊢
  rw [hg]
  by_cases hE : (gatherFileContexts ⟨cs, ms1, items, ars⟩ sid).isEmpty
  · simp [hE] at h
  · simp [hE] at h ⊢
    exact h

/-- C9 witness: a file-grounded session composes the same prompt with an
empty history and with a non-empty one. -/
theorem file_grounded_prompt_ignores_history_witness :
    composeForQuestion ⟨[], [msgW], [itemW], []⟩ "s" (str "q")
      = .fileGrounded (fileGroundedPrompt (str "q") [textFragment itemW]) :=
  file_grounded_prompt_ignores_history [] [] [msgW] [itemW] [] "s" (str "q")
    (fileGroundedPrompt (str "q") [textFragment itemW]) (by decide)

/-! ## C10 — the accepted filename ".pdf" breaks the extension recomputation -/

/-- C10: the filename `".pdf"` passes `allowed_file` (checked on the raw
name), but `secure_filename` strips the leading dot, so the recomputation
`original_filename.rsplit(".", 1)[1]` inside `upload_file` is out of range
(`none` models the `IndexError`): the upload raises between acceptance and
extraction. -/
theorem allowed_dotfile_breaks_ext_recompute :
    allowed_file (str ".pdf") = true ∧
    recomputed_ext (secure_filename (str ".pdf")) = none := by decide
